import Mathlib

/-
Verification development for the NorthStar risk-assessment and
pass-evaluation core.

Shallow embedding conventions:
  * Python `datetime` values are modelled as integers (seconds since the
    epoch); a `timedelta` between two datetimes is their integer difference.
    The Python attribute `timedelta.seconds` is the normalized
    seconds-of-day component, i.e. the difference modulo 86400 (Python
    floor-mod, always in [0, 86400)), which for a positive modulus agrees
    with Lean integer `%` (Int.emod).
  * Python `float` inputs (Kp index, flare scale, elevations, magnitudes)
    are modelled as rationals; every threshold comparison in the source is
    against a small integer constant, so the ordering behaviour coincides.
  * Python `int` values (pass duration in seconds) are modelled as `Int`.
  * Calls to `datetime.utcnow()` inside a function are modelled by an
    explicit `now : Int` parameter of the embedded function.
  * The fan-out fetches gathered with `return_exceptions=True` are modelled
    as `Except String` values handed to the aggregator; `logger.error`
    calls on the defaulting paths are modelled as an output list of the
    logged message strings, in call order.
-/

/-! ## Data model (backend/app/models/schemas.py) -/

/-- Solar flare event (schemas.py, `SolarFlare`). -/
structure SolarFlare where
  timestamp : Int
  class_type : String
  scale : ℚ
  region : Option String := none
  peak_time : Option Int := none
  end_time : Option Int := none
deriving DecidableEq, Repr

/-- Coronal mass ejection (schemas.py, `CME`). -/
structure CME where
  timestamp : Int
  speed_kms : ℚ
  earth_directed : Bool
  estimated_arrival : Option Int := none
  impact_probability : Option ℚ := none
deriving DecidableEq, Repr

/-- Current space weather status (schemas.py, `SpaceWeatherStatus`). -/
structure SpaceWeatherStatus where
  timestamp : Int
  kp_current : ℚ
  kp_forecast_3h : Option ℚ := none
  recent_flares : List SolarFlare := []
  active_cmes : List CME := []
  gps_degradation_risk : String
  hf_radio_risk : String
  satellite_risk : String
  aurora_visibility : Option String := none
  summary : String
deriving DecidableEq, Repr

/-- Alert severity levels (schemas.py, `AlertSeverity`). -/
inductive AlertSeverity where
  | info
  | moderate
  | high
  | severe
deriving DecidableEq, Repr

/-- Satellite pass prediction (schemas.py, `SatellitePass`). -/
structure SatellitePass where
  satellite_name : String
  satellite_id : Int
  start_time : Int
  max_elevation_time : Int
  end_time : Int
  max_elevation : ℚ
  start_azimuth : ℚ
  max_azimuth : ℚ
  end_azimuth : ℚ
  magnitude : Option ℚ := none
  duration_seconds : Int
  worth_watching : Bool
  commentary : Option String := none
deriving DecidableEq, Repr

/-- Pydantic construction of a `SatellitePass` (schemas.py lines 52-66).
The model declares plain typed fields only: no `Field` bound (`ge`/`le`)
touches the times and no validator relates `end_time` to `start_time`, so
construction succeeds for every typed field assignment.  Contrast
`mk_Location` below, where declared bounds do become checks. -/
def mk_SatellitePass (satellite_name : String) (satellite_id : Int)
    (start_time max_elevation_time end_time : Int)
    (max_elevation start_azimuth max_azimuth end_azimuth : ℚ)
    (magnitude : Option ℚ) (duration_seconds : Int)
    (worth_watching : Bool) (commentary : Option String) :
    Except String SatellitePass :=
  Except.ok
    { satellite_name := satellite_name
      satellite_id := satellite_id
      start_time := start_time
      max_elevation_time := max_elevation_time
      end_time := end_time
      max_elevation := max_elevation
      start_azimuth := start_azimuth
      max_azimuth := max_azimuth
      end_azimuth := end_azimuth
      magnitude := magnitude
      duration_seconds := duration_seconds
      worth_watching := worth_watching
      commentary := commentary }

/-- Geographic location (schemas.py, `Location`). -/
structure Location where
  latitude : ℚ
  longitude : ℚ
  altitude : ℚ := 0
  name : Option String := none
deriving DecidableEq, Repr

/-- Pydantic construction of a `Location` (schemas.py lines 43-48): the
declared `Field(ge=-90, le=90)` and `Field(ge=-180, le=180)` bounds are
enforced at construction time.  Included to show how declared pydantic
constraints are embedded; `SatellitePass` declares none. -/
def mk_Location (latitude longitude : ℚ) (altitude : ℚ) (name : Option String) :
    Except String Location :=
  if ¬(-90 ≤ latitude ∧ latitude ≤ 90) then
    Except.error "latitude out of range"
  else if ¬(-180 ≤ longitude ∧ longitude ≤ 180) then
    Except.error "longitude out of range"
  else
    Except.ok { latitude := latitude, longitude := longitude,
                altitude := altitude, name := name }

/-! ## WeatherRiskAssessor (backend/app/services/space_weather_service.py) -/

/-- GPS degradation risk (space_weather_service.py lines 113-121,
`_assess_gps_risk`). -/
def assess_gps_risk (kp : ℚ) (cmes : List CME) : String :=
  if 7 ≤ kp ∨ cmes.any (fun cme => cme.earth_directed) then "high"
  else if 5 ≤ kp then "moderate"
  else if 4 ≤ kp then "minor"
  else "none"

/-- Python `timedelta.seconds` of an integer-second difference: the
normalized seconds-of-day component, `diff mod 86400` with a result in
[0, 86400). -/
def timedelta_seconds (diff : Int) : Int := diff % 86400

/-- HF radio degradation risk (space_weather_service.py lines 123-139,
`_assess_hf_radio_risk`).  The source computes
`(datetime.utcnow() - f.timestamp).seconds < 3600`; `utcnow()` is the
`now` parameter here and `.seconds` is `timedelta_seconds`, the
seconds-of-day component of the difference (not the total). -/
def assess_hf_radio_risk (now : Int) (flares : List SolarFlare) : String :=
  if flares.isEmpty then "none"
  else
    let recent_strong := flares.filter (fun f =>
      (f.class_type == "M" || f.class_type == "X") &&
      decide (timedelta_seconds (now - f.timestamp) < 3600))
    if recent_strong.any (fun f => f.class_type == "X") then "high"
    else if ¬recent_strong.isEmpty then "moderate"
    else "minor"

/-- Satellite operations risk (space_weather_service.py lines 141-154,
`_assess_satellite_risk`).  The `cmes` parameter is accepted but unused,
exactly as in the source. -/
def assess_satellite_risk (kp : ℚ) (flares : List SolarFlare)
    (cmes : List CME) : String :=
  if 8 ≤ kp ∨ flares.any (fun f => f.class_type == "X" && decide (5 < f.scale)) then
    "high"
  else if 6 ≤ kp ∨ flares.any (fun f => f.class_type == "X") then "moderate"
  else if 5 ≤ kp then "minor"
  else "none"

/-- Aurora visibility (space_weather_service.py lines 156-164,
`_assess_aurora_visibility`). -/
def assess_aurora_visibility (kp : ℚ) : String :=
  if 8 ≤ kp then "visible_mid_latitudes"
  else if 6 ≤ kp then "visible_high_latitudes"
  else if 4 ≤ kp then "visible_polar_regions"
  else "unlikely"

/-- Python `str.capitalize`: first character upper-cased, the rest
lower-cased. -/
def str_capitalize (s : String) : String :=
  match s.data with
  | [] => ""
  | c :: cs => String.mk (c.toUpper :: cs.map Char.toLower)

/-- Python format `f"{kp:.1f}"` for the rationals used here: the value
scaled by ten, rounded to an integer (`scaled` is the floor of
`kp * 10 + 1/2`, written on the numerator and denominator of `kp` so it
evaluates by reduction), and printed with one decimal digit.  All Kp
values appearing in this development are non-negative and make `kp * 10`
an integer, so no rounding tie is ever exercised. -/
def format_kp_1f (kp : ℚ) : String :=
  let scaled : Int := Int.fdiv (20 * kp.num + (kp.den : Int)) (2 * (kp.den : Int))
  toString (scaled / 10) ++ "." ++ toString (scaled % 10)

/-- Human-readable status summary (space_weather_service.py lines 166-205,
`_generate_status_summary`).  The flare and CME lists are accepted but
unused, exactly as in the source. -/
def generate_status_summary (kp : ℚ) (flares : List SolarFlare)
    (cmes : List CME) (gps_risk hf_risk sat_risk : String) : String :=
  let kp_desc :=
    if kp < 4 then "Quiet geomagnetic conditions"
    else if kp < 5 then "Unsettled geomagnetic conditions"
    else if kp < 6 then "Active geomagnetic conditions"
    else if kp < 7 then "Minor geomagnetic storm"
    else if kp < 8 then "Moderate geomagnetic storm"
    else "Strong geomagnetic storm"
  let summary := "Status: " ++ kp_desc ++ " (Kp " ++ format_kp_1f kp ++ ")."
  let impacts :=
    (if gps_risk == "moderate" || gps_risk == "high" then
      [str_capitalize gps_risk ++ " GPS degradation possible"] else []) ++
    (if hf_risk == "moderate" || hf_risk == "high" then
      [str_capitalize hf_risk ++ " HF radio disruption"] else [])
  if ¬impacts.isEmpty then
    summary ++ " " ++ String.intercalate "; " impacts ++ "."
  else
    summary ++ " Most users unaffected."

/-- Severity determination of `generate_impact_explanation`
(space_weather_service.py lines 263-269): keyed on the Kp value of the
status alone. -/
def impact_explanation_severity (kp : ℚ) : AlertSeverity :=
  if 7 ≤ kp then AlertSeverity.high
  else if 5 ≤ kp then AlertSeverity.moderate
  else AlertSeverity.info

/-! ## StatusAggregator (space_weather_service.py, `get_current_status`) -/

/-- Demo space weather status (space_weather_service.py lines 279-300,
`_get_demo_status`).  The two `datetime.utcnow()` reads are the `now`
parameter; the demo flare timestamp is three hours before it. -/
def get_demo_status (now : Int) : SpaceWeatherStatus :=
  { timestamp := now
    kp_current := 5
    kp_forecast_3h := some (mkRat 53 10)
    recent_flares := [{ timestamp := now - 10800, class_type := "M",
                        scale := mkRat 52 10, region := some "AR3590" }]
    active_cmes := []
    gps_degradation_risk := "minor"
    hf_radio_risk := "moderate"
    satellite_risk := "minor"
    aurora_visibility := some "visible_high_latitudes"
    summary := "Status: Active geomagnetic conditions (Kp 5.0). " ++
               "Minor GPS degradation possible; most users unaffected." }

/-- Status aggregator (space_weather_service.py lines 26-78,
`get_current_status`).  `demo_mode` is `settings.DEMO_MODE`; `now` is the
wall clock at the call; the three `Except` arguments are the outcomes of
the concurrently gathered fetches (`return_exceptions=True` turns each
failure into a caught exception value).  Returns the composed status and
the list of `logger.error` messages emitted on the defaulting paths. -/
def get_current_status (demo_mode : Bool) (now : Int)
    (kpRes : Except String ℚ)
    (flaresRes : Except String (List SolarFlare))
    (cmesRes : Except String (List CME)) :
    SpaceWeatherStatus × List String :=
  if demo_mode then (get_demo_status now, [])
  else
    let kpLog : ℚ × List String :=
      match kpRes with
      | Except.ok v => (v, [])
      | Except.error _ => (3, ["Failed to fetch Kp"])
    let flaresLog : List SolarFlare × List String :=
      match flaresRes with
      | Except.ok v => (v, [])
      | Except.error _ => ([], ["Failed to fetch flares"])
    let cmesLog : List CME × List String :=
      match cmesRes with
      | Except.ok v => (v, [])
      | Except.error _ => ([], ["Failed to fetch CMEs"])
    let kp := kpLog.1
    let flares := flaresLog.1
    let cmes := cmesLog.1
    let gps_risk := assess_gps_risk kp cmes
    let hf_risk := assess_hf_radio_risk now flares
    let sat_risk := assess_satellite_risk kp flares cmes
    let aurora_vis := assess_aurora_visibility kp
    let summary := generate_status_summary kp flares cmes gps_risk hf_risk sat_risk
    ({ timestamp := now
       kp_current := kp
       kp_forecast_3h := none
       recent_flares := flares
       active_cmes := cmes
       gps_degradation_risk := gps_risk
       hf_radio_risk := hf_risk
       satellite_risk := sat_risk
       aurora_visibility := some aurora_vis
       summary := summary },
     kpLog.2 ++ flaresLog.2 ++ cmesLog.2)

/-! ## PassEvaluator (backend/app/services/satellite_service.py) -/

/-- Worth-watching verdict (satellite_service.py lines 118-123): the source
computes `pass_data["maxEl"] > 40 or (pass_data.get("mag", 5) < 0)`, the
dictionary default 5 standing in when no magnitude is present. -/
def worth_watching (maxEl : ℚ) (mag : Option ℚ) : Bool :=
  decide (40 < maxEl) || decide (mag.getD 5 < 0)

/-- Pass commentary (satellite_service.py lines 144-168,
`_generate_commentary`). -/
def generate_commentary (maxEl : ℚ) (duration : Int)
    (worth_watching : Bool) : String :=
  if ¬worth_watching then "Low pass, may not be easily visible."
  else
    let visibility :=
      if 70 < maxEl then "Overhead pass! Excellent viewing."
      else if 50 < maxEl then "High pass, very good viewing."
      else if 30 < maxEl then "Good pass, should be easy to spot."
      else "Moderate pass, clear sky recommended."
    let time_note :=
      if duration < 180 then "Quick pass"
      else if duration < 360 then "Standard duration"
      else "Long pass"
    visibility ++ " " ++ time_note ++ " (" ++ toString duration ++ "s)."

/-- Demo satellite passes (satellite_service.py lines 234-274,
`_get_demo_passes`).  The calendar computation placing `tonight_7pm` at
the next 19:41 wall-clock time is abstracted into the `tonight` parameter;
every other field is the literal fixture value. -/
def get_demo_passes (tonight : Int) : List SatellitePass :=
  [ { satellite_name := "ISS (ZARYA)"
      satellite_id := 25544
      start_time := tonight
      max_elevation_time := tonight + 180
      end_time := tonight + 360
      max_elevation := 63
      start_azimuth := 225
      max_azimuth := 180
      end_azimuth := 45
      magnitude := some (mkRat (-7) 2)
      duration_seconds := 360
      worth_watching := true
      commentary := some "High pass, very good viewing. Standard duration (360s)." },
    { satellite_name := "ISS (ZARYA)"
      satellite_id := 25544
      start_time := tonight + 46800
      max_elevation_time := tonight + 46800 + 120
      end_time := tonight + 46800 + 300
      max_elevation := 45
      start_azimuth := 270
      max_azimuth := 180
      end_azimuth := 90
      magnitude := some (mkRat (-14) 5)
      duration_seconds := 300
      worth_watching := true
      commentary := some "Good pass, should be easy to spot. Standard duration (300s)." } ]

/-! ## Severity orderings used by the monotonicity claims -/

/-- Rank of a risk rating: none < minor < moderate < high. -/
def risk_rank : String → Nat
  | "minor" => 1
  | "moderate" => 2
  | "high" => 3
  | _ => 0

/-- Rank of an aurora rating:
unlikely < visible_polar_regions < visible_high_latitudes <
visible_mid_latitudes. -/
def aurora_rank : String → Nat
  | "visible_polar_regions" => 1
  | "visible_high_latitudes" => 2
  | "visible_mid_latitudes" => 3
  | _ => 0

/-- Rank of an alert severity: info < moderate < high < severe. -/
def severity_rank : AlertSeverity → Nat
  | AlertSeverity.info => 0
  | AlertSeverity.moderate => 1
  | AlertSeverity.high => 2
  | AlertSeverity.severe => 3

/-! ## Claim theorems -/

/-- C1: evaluation of the HF-radio assessor at the failing input.  A single
class-X flare observed exactly 86400 seconds (one full day) before the
evaluation time is classified "high": the source tests the
`timedelta.seconds` component, and 86400 mod 86400 = 0 < 3600, so the
day-old flare counts as recent, while the claim requires any M/X flare
observed more than one hour before evaluation never to count (which would
give "minor", as the two-hour-old second input correctly does). -/
theorem c1_hf_risk_day_old_flare_counted_recent :
    assess_hf_radio_risk 86400
      [{ timestamp := 0, class_type := "X", scale := 1 }] = "high" ∧
    assess_hf_radio_risk 7200
      [{ timestamp := 0, class_type := "X", scale := 1 }] = "minor" :=
  ⟨rfl, rfl⟩

/-- C2: the GPS risk is "high" iff kp is at least 7 or some CME is
earth-directed; "moderate" iff otherwise kp is at least 5; "minor" iff
otherwise kp is at least 4; "none" iff none of these; and at kp 7 with one
earth-directed CME the risk is "high". -/
theorem c2_gps_risk_characterization (kp : ℚ) (cmes : List CME) :
    (assess_gps_risk kp cmes = "high" ↔
      7 ≤ kp ∨ ∃ c ∈ cmes, c.earth_directed = true) ∧
    (assess_gps_risk kp cmes = "moderate" ↔
      ¬(7 ≤ kp ∨ ∃ c ∈ cmes, c.earth_directed = true) ∧ 5 ≤ kp) ∧
    (assess_gps_risk kp cmes = "minor" ↔
      ¬(7 ≤ kp ∨ ∃ c ∈ cmes, c.earth_directed = true) ∧ ¬(5 ≤ kp) ∧ 4 ≤ kp) ∧
    (assess_gps_risk kp cmes = "none" ↔
      ¬(7 ≤ kp ∨ ∃ c ∈ cmes, c.earth_directed = true) ∧ kp < 4) ∧
    assess_gps_risk 7
      [{ timestamp := 0, speed_kms := 500, earth_directed := true }] = "high" := by
  have hany : (cmes.any (fun cme => cme.earth_directed) = true) ↔
      ∃ c ∈ cmes, c.earth_directed = true := by
    simp [List.any_eq_true]
  refine ⟨?_, ?_, ?_, ?_, rfl⟩ <;>
  · unfold assess_gps_risk
    split_ifs with h1 h2 h3 <;> simp_all <;> linarith

/-- C3: the satellite-operations risk is "high" iff kp is at least 8 or an
X-class flare with scale above 5 exists; otherwise "moderate" iff kp is at
least 6 or any X-class flare exists; otherwise "minor" iff kp is at least
5; otherwise "none" (top-down, first match wins); and at kp 3 with a
single X-class flare of scale 6 the risk is "high". -/
theorem c3_satellite_risk_characterization (kp : ℚ) (flares : List SolarFlare)
    (cmes : List CME) :
    (assess_satellite_risk kp flares cmes = "high" ↔
      8 ≤ kp ∨ ∃ f ∈ flares, f.class_type = "X" ∧ 5 < f.scale) ∧
    (assess_satellite_risk kp flares cmes = "moderate" ↔
      ¬(8 ≤ kp ∨ ∃ f ∈ flares, f.class_type = "X" ∧ 5 < f.scale) ∧
      (6 ≤ kp ∨ ∃ f ∈ flares, f.class_type = "X")) ∧
    (assess_satellite_risk kp flares cmes = "minor" ↔
      ¬(8 ≤ kp ∨ ∃ f ∈ flares, f.class_type = "X" ∧ 5 < f.scale) ∧
      ¬(6 ≤ kp ∨ ∃ f ∈ flares, f.class_type = "X") ∧ 5 ≤ kp) ∧
    (assess_satellite_risk kp flares cmes = "none" ↔
      ¬(8 ≤ kp ∨ ∃ f ∈ flares, f.class_type = "X" ∧ 5 < f.scale) ∧
      ¬(6 ≤ kp ∨ ∃ f ∈ flares, f.class_type = "X") ∧ kp < 5) ∧
    assess_satellite_risk 3
      [{ timestamp := 0, class_type := "X", scale := 6 }] [] = "high" := by
  refine ⟨?_, ?_, ?_, ?_, rfl⟩ <;>
  · unfold assess_satellite_risk
    split_ifs with h1 h2 h3 <;> simp_all

/-- C4: the worth-watching verdict is true iff the maximal elevation
exceeds 40 degrees or a magnitude is present and negative, and with no
magnitude present it is false iff the elevation does not exceed 40, so an
absent magnitude never triggers the brightness branch. -/
theorem c4_worth_watching_characterization (maxEl : ℚ) (mag : Option ℚ) :
    (worth_watching maxEl mag = true ↔
      40 < maxEl ∨ ∃ m, mag = some m ∧ m < 0) ∧
    (worth_watching maxEl none = false ↔ maxEl ≤ 40) := by
  constructor
  · cases mag with
    | none => simp [worth_watching]
    | some m => simp [worth_watching]
  · simp [worth_watching]

/-- C5: whenever the verdict is false the commentary is the fixed low-pass
text, independent of duration; whenever it is true the commentary is the
elevation-selected visibility clause followed by the duration clause and
the literal duration; and the full pipeline at elevation 75 and duration
200 with no magnitude yields the claimed string. -/
theorem c5_commentary_characterization (maxEl : ℚ) (duration : Int) :
    (generate_commentary maxEl duration false =
      "Low pass, may not be easily visible.") ∧
    (generate_commentary maxEl duration true =
      (if 70 < maxEl then "Overhead pass! Excellent viewing."
       else if 50 < maxEl then "High pass, very good viewing."
       else if 30 < maxEl then "Good pass, should be easy to spot."
       else "Moderate pass, clear sky recommended.") ++ " " ++
      (if duration < 180 then "Quick pass"
       else if duration < 360 then "Standard duration"
       else "Long pass") ++ " (" ++ toString duration ++ "s).") ∧
    generate_commentary 75 200 (worth_watching 75 none) =
      "Overhead pass! Excellent viewing. Standard duration (200s)." := by
  refine ⟨rfl, ?_, rfl⟩
  simp [generate_commentary]

/-- Monotonicity of the GPS risk rank in the Kp value, CMEs fixed. -/
lemma gps_risk_mono {kp₁ kp₂ : ℚ} (h : kp₁ ≤ kp₂) (cmes : List CME) :
    risk_rank (assess_gps_risk kp₁ cmes) ≤ risk_rank (assess_gps_risk kp₂ cmes) := by
  by_cases hc : (cmes.any fun cme => cme.earth_directed) = true
  · simp [assess_gps_risk, hc, risk_rank]
  · simp only [assess_gps_risk, hc, or_false]
    split_ifs <;> simp_all [risk_rank] <;> linarith

/-- Monotonicity of the satellite-operations risk rank in the Kp value,
flares and CMEs fixed. -/
lemma satellite_risk_mono {kp₁ kp₂ : ℚ} (h : kp₁ ≤ kp₂)
    (flares : List SolarFlare) (cmes : List CME) :
    risk_rank (assess_satellite_risk kp₁ flares cmes) ≤
      risk_rank (assess_satellite_risk kp₂ flares cmes) := by
  by_cases hA : (flares.any fun f => f.class_type == "X" && decide (5 < f.scale)) = true
  · simp [assess_satellite_risk, hA, risk_rank]
  · by_cases hB : (flares.any fun f => f.class_type == "X") = true
    · simp only [assess_satellite_risk, hA, hB, or_false, or_true]
      split_ifs <;> simp_all [risk_rank] <;> linarith
    · simp only [assess_satellite_risk, hA, hB, or_false]
      split_ifs <;> simp_all [risk_rank] <;> linarith

/-- Monotonicity of the aurora visibility rank in the Kp value. -/
lemma aurora_visibility_mono {kp₁ kp₂ : ℚ} (h : kp₁ ≤ kp₂) :
    aurora_rank (assess_aurora_visibility kp₁) ≤
      aurora_rank (assess_aurora_visibility kp₂) := by
  unfold assess_aurora_visibility
  split_ifs <;> simp_all [aurora_rank] <;> linarith

/-- Monotonicity of the impact-explanation severity rank in the Kp value. -/
lemma impact_explanation_severity_mono {kp₁ kp₂ : ℚ} (h : kp₁ ≤ kp₂) :
    severity_rank (impact_explanation_severity kp₁) ≤
      severity_rank (impact_explanation_severity kp₂) := by
  unfold impact_explanation_severity
  split_ifs <;> simp_all [severity_rank] <;> linarith

/-- C6: with the flare and CME lists fixed and the Kp value ranging over
[0, 9], the GPS, HF-radio, satellite-operations and aurora-visibility
classifications and the impact-explanation severity are monotonically
non-decreasing in severity as the Kp value increases, under the orderings
none < minor < moderate < high, unlikely < visible_polar_regions <
visible_high_latitudes < visible_mid_latitudes and info < moderate < high
< severe (the HF-radio assessor does not read the Kp value at all, so its
rating is unchanged). -/
theorem c6_risk_monotone_in_kp (now : Int) (flares : List SolarFlare)
    (cmes : List CME) (kp₁ kp₂ : ℚ)
    (h₀ : 0 ≤ kp₁) (h₁₂ : kp₁ ≤ kp₂) (h₉ : kp₂ ≤ 9) :
    risk_rank (assess_gps_risk kp₁ cmes) ≤ risk_rank (assess_gps_risk kp₂ cmes) ∧
    risk_rank (assess_hf_radio_risk now flares) ≤
      risk_rank (assess_hf_radio_risk now flares) ∧
    risk_rank (assess_satellite_risk kp₁ flares cmes) ≤
      risk_rank (assess_satellite_risk kp₂ flares cmes) ∧
    aurora_rank (assess_aurora_visibility kp₁) ≤
      aurora_rank (assess_aurora_visibility kp₂) ∧
    severity_rank (impact_explanation_severity kp₁) ≤
      severity_rank (impact_explanation_severity kp₂) :=
  ⟨gps_risk_mono h₁₂ cmes, le_refl _, satellite_risk_mono h₁₂ flares cmes,
   aurora_visibility_mono h₁₂, impact_explanation_severity_mono h₁₂⟩

/-- C6 witness: the monotonicity theorem instantiated at Kp values 2 and 8
with empty flare and CME lists. -/
theorem c6_risk_monotone_in_kp_witness :
    (0 : ℚ) ≤ 2 ∧ (2 : ℚ) ≤ 8 ∧ (8 : ℚ) ≤ 9 ∧
    (risk_rank (assess_gps_risk 2 []) ≤ risk_rank (assess_gps_risk 8 []) ∧
     risk_rank (assess_hf_radio_risk 0 []) ≤ risk_rank (assess_hf_radio_risk 0 []) ∧
     risk_rank (assess_satellite_risk 2 [] []) ≤
       risk_rank (assess_satellite_risk 8 [] []) ∧
     aurora_rank (assess_aurora_visibility 2) ≤
       aurora_rank (assess_aurora_visibility 8) ∧
     severity_rank (impact_explanation_severity 2) ≤
       severity_rank (impact_explanation_severity 8)) :=
  ⟨by norm_num, by norm_num, by norm_num,
   c6_risk_monotone_in_kp 0 [] [] 2 8 (by norm_num) (by norm_num) (by norm_num)⟩

/-- C7 counterexample: two calls of the status aggregator with identical
kp, flare-list and CME-list inputs, differing only in the wall-clock
instant at which they run (half an hour versus two hours after the flare),
disagree on the HF-radio risk and produce different statuses: the one-hour
recency window reads `datetime.utcnow()` inside the assessor rather than
an explicit evaluation-timestamp parameter. -/
theorem c7_assess_not_wall_clock_independent :
    (get_current_status false 1800 (Except.ok 0)
        (Except.ok [{ timestamp := 0, class_type := "M", scale := 1 }])
        (Except.ok [])).1.hf_radio_risk = "moderate" ∧
    (get_current_status false 7200 (Except.ok 0)
        (Except.ok [{ timestamp := 0, class_type := "M", scale := 1 }])
        (Except.ok [])).1.hf_radio_risk = "minor" ∧
    (get_current_status false 1800 (Except.ok 0)
        (Except.ok [{ timestamp := 0, class_type := "M", scale := 1 }])
        (Except.ok [])).1 ≠
      (get_current_status false 7200 (Except.ok 0)
        (Except.ok [{ timestamp := 0, class_type := "M", scale := 1 }])
        (Except.ok [])).1 := by
  refine ⟨rfl, rfl, ?_⟩
  decide

/-- C7 amended: the aggregator is deterministic once the evaluation
instant is fixed — the composed status is a pure function of the wall
clock and the three fetched inputs, and apart from the `timestamp` field
its only dependence on the wall clock is through the HF-radio recency
assessment, so two calls whose HF-radio assessments agree produce statuses
identical up to the timestamp. -/
theorem c7_assess_deterministic_given_clock (t₁ t₂ : Int) (kp : ℚ)
    (flares : List SolarFlare) (cmes : List CME)
    (h : assess_hf_radio_risk t₁ flares = assess_hf_radio_risk t₂ flares) :
    (get_current_status false t₁ (Except.ok kp) (Except.ok flares)
        (Except.ok cmes)).1 =
      { (get_current_status false t₂ (Except.ok kp) (Except.ok flares)
          (Except.ok cmes)).1 with timestamp := t₁ } := by
  simp only [get_current_status, Bool.false_eq_true, if_false, h]

/-- C7 witness: the amended determinism theorem instantiated at a fixed
instant with kp 3 and empty flare and CME lists. -/
theorem c7_assess_deterministic_given_clock_witness :
    assess_hf_radio_risk 0 [] = assess_hf_radio_risk 0 [] ∧
    (get_current_status false 0 (Except.ok 3) (Except.ok [])
        (Except.ok [])).1 =
      { (get_current_status false 0 (Except.ok 3) (Except.ok [])
          (Except.ok [])).1 with timestamp := 0 } :=
  ⟨rfl, c7_assess_deterministic_given_clock 0 0 3 [] [] rfl⟩

/-- C8: when the geomagnetic fetch fails the aggregator substitutes the
fixed default kp 3.0 and logs exactly the one event naming the Kp feed
while keeping the successfully fetched flares and CMEs; when the flare
feed fails the flare list becomes empty and kp and CMEs are kept; when the
CME feed fails the CME list becomes empty and kp and flares are kept; in
every case a status is returned rather than an error propagated. -/
theorem c8_aggregator_defaulting (now : Int) (e : String) (kp : ℚ)
    (flares : List SolarFlare) (cmes : List CME) :
    ((get_current_status false now (Except.error e) (Except.ok flares)
        (Except.ok cmes)).1.kp_current = 3 ∧
     (get_current_status false now (Except.error e) (Except.ok flares)
        (Except.ok cmes)).2 = ["Failed to fetch Kp"] ∧
     (get_current_status false now (Except.error e) (Except.ok flares)
        (Except.ok cmes)).1.recent_flares = flares ∧
     (get_current_status false now (Except.error e) (Except.ok flares)
        (Except.ok cmes)).1.active_cmes = cmes) ∧
    ((get_current_status false now (Except.ok kp) (Except.error e)
        (Except.ok cmes)).1.recent_flares = [] ∧
     (get_current_status false now (Except.ok kp) (Except.error e)
        (Except.ok cmes)).1.kp_current = kp ∧
     (get_current_status false now (Except.ok kp) (Except.error e)
        (Except.ok cmes)).1.active_cmes = cmes ∧
     (get_current_status false now (Except.ok kp) (Except.error e)
        (Except.ok cmes)).2 = ["Failed to fetch flares"]) ∧
    ((get_current_status false now (Except.ok kp) (Except.ok flares)
        (Except.error e)).1.active_cmes = [] ∧
     (get_current_status false now (Except.ok kp) (Except.ok flares)
        (Except.error e)).1.kp_current = kp ∧
     (get_current_status false now (Except.ok kp) (Except.ok flares)
        (Except.error e)).1.recent_flares = flares ∧
     (get_current_status false now (Except.ok kp) (Except.ok flares)
        (Except.error e)).2 = ["Failed to fetch CMEs"]) :=
  ⟨⟨rfl, rfl, rfl, rfl⟩, ⟨rfl, rfl, rfl, rfl⟩, ⟨rfl, rfl, rfl, rfl⟩⟩

/-- C9 counterexample: constructing a `SatellitePass` whose end time (50)
precedes its start time (100) succeeds instead of being rejected, so a
successfully constructed pass need not satisfy end_time > start_time. -/
theorem c9_malformed_geometry_accepted :
    mk_SatellitePass "SAT" 1 100 75 50 10 0 0 0 none 360 false none =
      Except.ok
        { satellite_name := "SAT", satellite_id := 1, start_time := 100,
          max_elevation_time := 75, end_time := 50, max_elevation := 10,
          start_azimuth := 0, max_azimuth := 0, end_azimuth := 0,
          magnitude := none, duration_seconds := 360,
          worth_watching := false, commentary := none } ∧
    ¬((100 : Int) < 50) := by
  exact ⟨rfl, by norm_num⟩

/-- C9 amended: the `SatellitePass` model performs no cross-field geometry
validation — construction succeeds for every typed input, and in
particular an input with end_time at or before start_time yields a
constructed pass carrying exactly those times, rather than a validation
failure. -/
theorem c9_no_geometry_validation (name : String) (sid : Int)
    (s mt e : Int) (el a₁ a₂ a₃ : ℚ) (mag : Option ℚ) (dur : Int)
    (ww : Bool) (comm : Option String) (h : e ≤ s) :
    ∃ p, mk_SatellitePass name sid s mt e el a₁ a₂ a₃ mag dur ww comm =
        Except.ok p ∧
      p.start_time = s ∧ p.end_time = e ∧ p.end_time ≤ p.start_time :=
  ⟨_, rfl, rfl, rfl, h⟩

/-- C9 witness: the amended theorem instantiated at start time 100 and end
time 50. -/
theorem c9_no_geometry_validation_witness :
    (50 : Int) ≤ 100 ∧
    ∃ p, mk_SatellitePass "SAT" 1 100 75 50 10 0 0 0 none 360 false none =
        Except.ok p ∧
      p.start_time = 100 ∧ p.end_time = 50 ∧ p.end_time ≤ p.start_time :=
  ⟨by norm_num,
   c9_no_geometry_validation "SAT" 1 100 75 50 10 0 0 0 none 360 false none
     (by norm_num)⟩

/-- C10 counterexample: the first demo satellite pass carries the
commentary "High pass, very good viewing. Standard duration (360s)." while
the commentary generator applied to its own geometry (elevation 63,
duration 360, worth watching) produces the duration clause "Long pass"
(360 is not below the 360 threshold), so the fixture commentary differs
from the engine output. -/
theorem c10_first_demo_pass_commentary_inconsistent :
    ((get_demo_passes 0).head?.map (fun p =>
        p.commentary ==
          some (generate_commentary p.max_elevation p.duration_seconds
            p.worth_watching))) = some false := by
  rfl

/-- C10 amended: the demo fixtures are only partially self-consistent with
the classification engine.  Both demo passes have a worth_watching field
matching the worth-watching rule, and the second demo pass commentary
matches the commentary generator, but the first does not (duration 360
maps to "Long pass", not "Standard duration"); in the demo weather status
only the satellite risk field equals its assessor output, while the GPS
assessor yields "moderate" against the recorded "minor", the HF-radio
assessor yields "minor" against the recorded "moderate" (the demo flare is
three hours old, outside the one-hour window), the aurora assessor yields
"visible_polar_regions" against the recorded "visible_high_latitudes", and
the summary generator yields "Status: Active geomagnetic conditions
(Kp 5.0). Moderate GPS degradation possible." against the recorded
summary. -/
theorem c10_demo_fixture_partial_consistency (t n : Int) :
    ((get_demo_passes t).all (fun p =>
        p.worth_watching == worth_watching p.max_elevation p.magnitude)) = true ∧
    ((get_demo_passes t).map (fun p =>
        p.commentary ==
          some (generate_commentary p.max_elevation p.duration_seconds
            p.worth_watching))) = [false, true] ∧
    assess_gps_risk (get_demo_status n).kp_current
        (get_demo_status n).active_cmes = "moderate" ∧
    (get_demo_status n).gps_degradation_risk = "minor" ∧
    assess_hf_radio_risk n (get_demo_status n).recent_flares = "minor" ∧
    (get_demo_status n).hf_radio_risk = "moderate" ∧
    assess_satellite_risk (get_demo_status n).kp_current
        (get_demo_status n).recent_flares (get_demo_status n).active_cmes =
      (get_demo_status n).satellite_risk ∧
    assess_aurora_visibility (get_demo_status n).kp_current =
      "visible_polar_regions" ∧
    (get_demo_status n).aurora_visibility = some "visible_high_latitudes" ∧
    generate_status_summary (get_demo_status n).kp_current
        (get_demo_status n).recent_flares (get_demo_status n).active_cmes
        (assess_gps_risk (get_demo_status n).kp_current
          (get_demo_status n).active_cmes)
        (assess_hf_radio_risk n (get_demo_status n).recent_flares)
        (assess_satellite_risk (get_demo_status n).kp_current
          (get_demo_status n).recent_flares (get_demo_status n).active_cmes) =
      "Status: Active geomagnetic conditions (Kp 5.0). Moderate GPS degradation possible." ∧
    (get_demo_status n).summary =
      "Status: Active geomagnetic conditions (Kp 5.0). " ++
        "Minor GPS degradation possible; most users unaffected." := by
  have hd : n - (n - 10800) = 10800 := by ring
  have hf : assess_hf_radio_risk n (get_demo_status n).recent_flares = "minor" := by
    simp [assess_hf_radio_risk, get_demo_status, timedelta_seconds, hd]
  refine ⟨rfl, rfl, rfl, rfl, hf, rfl, ?_, rfl, rfl, ?_, rfl⟩
  · rfl
  · rw [hf]
    show generate_status_summary 5 _ _ (assess_gps_risk 5 []) "minor"
      (assess_satellite_risk 5 _ []) = _
    rfl
